import Mathlib

/-!
# Accounting-entry approval workflow: a shallow embedding of `src/main.py`

The embedding models the entry lifecycle engine of the FastAPI service:
the `AccountingEntry` pydantic model, the stored document, and the four
mutating endpoints `update_entry`, `submit_for_review`, `reviewer_action`
and `approver_action`.  Timestamps (`datetime.now(timezone.utc)`) are
modelled as an explicit `now : Nat` argument; the MongoDB document store
is elided, operations act on the single fetched document and return
`Except Err EntryDoc` (an `HTTPException` becomes a typed `Err`).
Role literals come from the pydantic `Literal` types of each payload:
`"blackadam"` is the universal override (superuser) credential.
-/

namespace Accounting

/-- The six lifecycle states (`AccountingEntry.status` `Literal` in `src/main.py`). -/
inductive Status
  | draft
  | submitted_for_review
  | reentry_requested
  | recheck_requested
  | reviewed
  | approved
deriving DecidableEq, Repr

/-- The role `Literal` of `UpdateEntryPayload` and `RolePayload`:
`"creator" | "reviewer" | "approver" | "blackadam"`. -/
inductive Role
  | creator
  | reviewer
  | approver
  | blackadam
deriving DecidableEq, Repr

/-- The role `Literal` of the `Comment` model: `"creator" | "reviewer" | "approver"`.
Note `"blackadam"` is not an inhabitant: a stored comment can never carry the
superuser credential. -/
inductive CommentRole
  | creator
  | reviewer
  | approver
deriving DecidableEq, Repr

/-- The `Comment` pydantic model: `role`, `message`, and the creation
timestamp `at` (field `at` is a Lean keyword, rendered `at_`). -/
structure Comment where
  role : CommentRole
  message : String
  at_ : Nat
deriving DecidableEq, Repr

/-- The `AccountingEntry` pydantic model, i.e. the request body of
`POST /api/entries`.  `status`, `comments` and `frozen` are ordinary
optional fields with defaults: a caller may supply them and pydantic
validates and keeps the supplied values. -/
structure AccountingEntry where
  title : String
  amount : Int
  description : Option String := none
  status : Status := .draft
  comments : List Comment := []
  frozen : Bool := false
deriving DecidableEq, Repr

/-- The stored MongoDB document for one entry (fields written by
`create_document` plus the model fields). -/
structure EntryDoc where
  title : String
  amount : Int
  description : Option String
  status : Status
  comments : List Comment
  frozen : Bool
  created_at : Nat
  updated_at : Nat
deriving DecidableEq, Repr

/-- Typed error kinds of the engine, from the `HTTPException`s raised in
`src/main.py` (`BadId` = malformed ObjectId, `Unavailable` = database not
configured). -/
inductive Err
  | BadId
  | NotFound
  | Frozen
  | InvalidState
  | Forbidden
  | Unavailable
deriving DecidableEq, Repr

/-- The HTTP status code each error kind is raised with in `src/main.py`. -/
def httpStatus : Err → Nat
  | .BadId => 400
  | .NotFound => 404
  | .Frozen => 400
  | .InvalidState => 400
  | .Forbidden => 403
  | .Unavailable => 500

/-- Python truthiness of an `Optional[str]`: `None` and `""` are falsy. -/
def pyTruthy : Option String → Bool
  | none => false
  | some s => s != ""

/-- Modelled from the spec: `database.create_document` (file `database.py`
is not under `src/`).  Per §2 the Document Store merely "supports …
insert": it stores the record it is given as-is, and per §3 the stored
entry carries `created_at` / `updated_at` timestamps, set at insertion. -/
def create_document (entry : AccountingEntry) (now : Nat) : EntryDoc :=
  { title := entry.title
    amount := entry.amount
    description := entry.description
    status := entry.status
    comments := entry.comments
    frozen := entry.frozen
    created_at := now
    updated_at := now }

/-- `POST /api/entries` (`create_entry` in `src/main.py`): inserts the
validated `AccountingEntry` via `create_document` and returns the stored
document. -/
def create_entry (entry : AccountingEntry) (now : Nat) : EntryDoc :=
  create_document entry now

/-- `UpdateEntryPayload`: optional `title` / `amount` / `description`
plus a required `role` tag. -/
structure UpdateEntryPayload where
  title : Option String := none
  amount : Option Int := none
  description : Option String := none
  role : Role
deriving DecidableEq, Repr

/-- `PATCH /api/entries/{id}` (`update_entry`): frozen check, then state
check, then apply the supplied subset of fields; if no field is supplied
the document is returned unchanged with no store write and no
`updated_at` bump.  `payload.role` is never consulted. -/
def update_entry (doc : EntryDoc) (payload : UpdateEntryPayload) (now : Nat) :
    Except Err EntryDoc :=
  if doc.frozen then .error .Frozen
  else if ¬ (doc.status = .draft ∨ doc.status = .reentry_requested) then
    .error .InvalidState
  else if payload.title = none ∧ payload.amount = none ∧ payload.description = none then
    .ok doc
  else
    .ok { doc with
      title := payload.title.getD doc.title
      amount := payload.amount.getD doc.amount
      description := match payload.description with
        | some d => some d
        | none => doc.description
      updated_at := now }

/-- `RolePayload` for `submit_for_review`: a `role` and an optional
`comment`. -/
structure RolePayload where
  role : Role
  comment : Option String := none
deriving DecidableEq, Repr

/-- `PATCH /api/entries/{id}/submit` (`submit_for_review`): frozen check,
then role check (`creator` or `blackadam`), then state check
(`draft` / `reentry_requested`); pushes a `creator` comment only when the
supplied comment is truthy, then sets `status = submitted_for_review`
and bumps `updated_at`. -/
def submit_for_review (doc : EntryDoc) (payload : RolePayload) (now : Nat) :
    Except Err EntryDoc :=
  if doc.frozen then .error .Frozen
  else if ¬ (payload.role = .creator ∨ payload.role = .blackadam) then
    .error .Forbidden
  else if ¬ (doc.status = .draft ∨ doc.status = .reentry_requested) then
    .error .InvalidState
  else
    let doc1 :=
      if pyTruthy payload.comment then
        { doc with comments :=
            doc.comments ++ [⟨.creator, payload.comment.getD "", now⟩] }
      else doc
    .ok { doc1 with status := .submitted_for_review, updated_at := now }

/-- The reviewer `action` `Literal`: `"mark_reviewed" | "request_reentry"`. -/
inductive ReviewerAct
  | mark_reviewed
  | request_reentry
deriving DecidableEq, Repr

/-- The role `Literal` of `ReviewerActionPayload`: `"reviewer" | "blackadam"`.
Any other declared role is rejected at request validation, before the
handler runs. -/
inductive ReviewerRole
  | reviewer
  | blackadam
deriving DecidableEq, Repr

/-- `ReviewerActionPayload`. -/
structure ReviewerActionPayload where
  role : ReviewerRole
  action : ReviewerAct
  comment : Option String := none
deriving DecidableEq, Repr

/-- `PATCH /api/entries/{id}/review` (`reviewer_action`): frozen check,
then state check (`submitted_for_review` / `recheck_requested`); computes
the new status and the default message from `action`, always pushes a
`reviewer` comment (`payload.comment or default_msg` is always truthy),
then applies the status update and bumps `updated_at`.  `payload.role`
is not consulted in the handler body. -/
def reviewer_action (doc : EntryDoc) (payload : ReviewerActionPayload) (now : Nat) :
    Except Err EntryDoc :=
  if doc.frozen then .error .Frozen
  else if ¬ (doc.status = .submitted_for_review ∨ doc.status = .recheck_requested) then
    .error .InvalidState
  else
    let newStatus : Status := match payload.action with
      | .mark_reviewed => .reviewed
      | .request_reentry => .reentry_requested
    let defaultMsg : String := match payload.action with
      | .mark_reviewed => "Marked as reviewed"
      | .request_reentry => "Re-entry requested"
    let doc1 :=
      if pyTruthy payload.comment ∨ defaultMsg ≠ "" then
        let message := if pyTruthy payload.comment then payload.comment.getD "" else defaultMsg
        { doc with comments := doc.comments ++ [⟨.reviewer, message, now⟩] }
      else doc
    .ok { doc1 with status := newStatus, updated_at := now }

/-- The approver `action` `Literal`: `"approve" | "request_rereview"`. -/
inductive ApproverAct
  | approve
  | request_rereview
deriving DecidableEq, Repr

/-- The role `Literal` of `ApproverActionPayload`: `"approver" | "blackadam"`. -/
inductive ApproverRole
  | approver
  | blackadam
deriving DecidableEq, Repr

/-- `ApproverActionPayload`. -/
structure ApproverActionPayload where
  role : ApproverRole
  action : ApproverAct
  comment : Option String := none
deriving DecidableEq, Repr

/-- `PATCH /api/entries/{id}/approve` (`approver_action`): frozen check,
then state check (`reviewed` only); `approve` sets
`status = approved, frozen = True`, `request_rereview` sets
`status = recheck_requested` and leaves `frozen` alone; always pushes an
`approver` comment with `payload.comment or default_msg`, and bumps
`updated_at`.  `payload.role` is not consulted in the handler body. -/
def approver_action (doc : EntryDoc) (payload : ApproverActionPayload) (now : Nat) :
    Except Err EntryDoc :=
  if doc.frozen then .error .Frozen
  else if doc.status ≠ .reviewed then .error .InvalidState
  else
    let newStatus : Status := match payload.action with
      | .approve => .approved
      | .request_rereview => .recheck_requested
    let newFrozen : Bool := match payload.action with
      | .approve => true
      | .request_rereview => doc.frozen
    let defaultMsg : String := match payload.action with
      | .approve => "Approved"
      | .request_rereview => "Re-review requested"
    let message := if pyTruthy payload.comment then payload.comment.getD "" else defaultMsg
    .ok { doc with
      status := newStatus
      frozen := newFrozen
      comments := doc.comments ++ [⟨.approver, message, now⟩]
      updated_at := now }

/-- One invocation of a mutating operation, with its payload. -/
inductive Op
  | update (payload : UpdateEntryPayload)
  | submit (payload : RolePayload)
  | review (payload : ReviewerActionPayload)
  | approve (payload : ApproverActionPayload)
deriving DecidableEq, Repr

/-- Dispatch one operation on the stored document. -/
def step (doc : EntryDoc) : Op → Nat → Except Err EntryDoc
  | .update payload, now => update_entry doc payload now
  | .submit payload, now => submit_for_review doc payload now
  | .review payload, now => reviewer_action doc payload now
  | .approve payload, now => approver_action doc payload now

/-- Run a sequence of timestamped operations; a rejected operation leaves
the stored document unchanged (every error is raised before any write). -/
def run (doc : EntryDoc) : List (Op × Nat) → EntryDoc
  | [] => doc
  | (op, now) :: rest =>
    match step doc op now with
    | .ok doc1 => run doc1 rest
    | .error _ => run doc rest

/-- The frozen/approved coupling invariant of the data model:
`frozen == true ⇔ status == approved`. -/
def frozenInv (doc : EntryDoc) : Prop :=
  doc.frozen = true ↔ doc.status = Status.approved

instance (doc : EntryDoc) : Decidable (frozenInv doc) := by
  unfold frozenInv
  infer_instance

/-- A concrete frozen stored document, used as a test fixture by witnesses. -/
def sampleFrozen : EntryDoc :=
  { title := "f", amount := 9, description := none, status := Status.approved,
    comments := [], frozen := true, created_at := 0, updated_at := 0 }

/-- A concrete draft stored document, used as a test fixture by witnesses. -/
def sampleDraft : EntryDoc :=
  { title := "d", amount := 1, description := none, status := Status.draft,
    comments := [], frozen := false, created_at := 0, updated_at := 0 }

/-- A concrete reviewed stored document, used as a test fixture by witnesses. -/
def sampleReviewed : EntryDoc :=
  { title := "r", amount := 2, description := none, status := Status.reviewed,
    comments := [], frozen := false, created_at := 0, updated_at := 0 }

/-- A concrete submitted stored document, used as a test fixture by witnesses. -/
def sampleSubmitted : EntryDoc :=
  { title := "s", amount := 3, description := none, status := Status.submitted_for_review,
    comments := [], frozen := false, created_at := 0, updated_at := 0 }

/-- A create request that supplies its own `status`, `comments` and
`frozen` values, used as a test fixture by a counterexample. -/
def sampleSeeded : AccountingEntry :=
  { title := "x", amount := 1, status := Status.approved,
    comments := [⟨CommentRole.creator, "smuggled", 0⟩], frozen := true }

/-- Helper: every operation rejects a frozen document with `Frozen`. -/
theorem step_of_frozen (doc : EntryDoc) (op : Op) (now : Nat) (h : doc.frozen = true) :
    step doc op now = Except.error Err.Frozen := by
  cases op <;>
    simp [step, update_entry, submit_for_review, reviewer_action, approver_action, h]

/-- Helper: a frozen document is left unchanged by any sequence of operations. -/
theorem run_of_frozen (doc : EntryDoc) (ops : List (Op × Nat)) (h : doc.frozen = true) :
    run doc ops = doc := by
  induction ops with
  | nil => rfl
  | cons hd tl ih =>
    obtain ⟨op, now⟩ := hd
    rw [run, step_of_frozen doc op now h]
    exact ih

/-- Helper: shape of a successful `update_entry` call — the input was not
frozen and was in an allowed state, and `frozen` / `status` / `comments`
are carried over unchanged. -/
theorem update_entry_ok_shape (doc : EntryDoc) (payload : UpdateEntryPayload)
    (now : Nat) (doc1 : EntryDoc)
    (h : update_entry doc payload now = Except.ok doc1) :
    doc.frozen = false ∧
    (doc.status = Status.draft ∨ doc.status = Status.reentry_requested) ∧
    doc1.frozen = doc.frozen ∧ doc1.status = doc.status ∧
    doc1.comments = doc.comments := by
  unfold update_entry at h
  by_cases hf : doc.frozen
  · simp [hf] at h
  by_cases hs : doc.status = Status.draft ∨ doc.status = Status.reentry_requested
  · rw [if_neg hf, if_neg (not_not_intro hs)] at h
    by_cases hn : payload.title = none ∧ payload.amount = none ∧ payload.description = none
    · rw [if_pos hn] at h
      obtain h1 := Except.ok.inj h
      subst h1
      exact ⟨by simpa using hf, hs, rfl, rfl, rfl⟩
    · rw [if_neg hn] at h
      obtain h1 := Except.ok.inj h
      subst h1
      exact ⟨by simpa using hf, hs, rfl, rfl, rfl⟩
  · simp [hf, hs] at h

/-- Helper: shape of a successful `submit_for_review` call. -/
theorem submit_ok_shape (doc : EntryDoc) (payload : RolePayload)
    (now : Nat) (doc1 : EntryDoc)
    (h : submit_for_review doc payload now = Except.ok doc1) :
    doc.frozen = false ∧
    (payload.role = Role.creator ∨ payload.role = Role.blackadam) ∧
    (doc.status = Status.draft ∨ doc.status = Status.reentry_requested) ∧
    doc1.frozen = doc.frozen ∧ doc1.status = Status.submitted_for_review ∧
    doc1.updated_at = now ∧
    (if pyTruthy payload.comment then
       doc1.comments = doc.comments ++ [⟨.creator, payload.comment.getD "", now⟩]
     else doc1.comments = doc.comments) := by
  unfold submit_for_review at h
  by_cases hf : doc.frozen
  · simp [hf] at h
  by_cases hr : payload.role = Role.creator ∨ payload.role = Role.blackadam
  · by_cases hs : doc.status = Status.draft ∨ doc.status = Status.reentry_requested
    · rw [if_neg hf, if_neg (not_not_intro hr), if_neg (not_not_intro hs)] at h
      obtain h1 := Except.ok.inj h
      subst h1
      refine ⟨by simpa using hf, hr, hs, ?_⟩
      by_cases hc : pyTruthy payload.comment <;> simp [hc]
    · simp [hf, hr, hs] at h
  · simp [hf, hr] at h

/-- Helper: shape of a successful `reviewer_action` call. -/
theorem review_ok_shape (doc : EntryDoc) (payload : ReviewerActionPayload)
    (now : Nat) (doc1 : EntryDoc)
    (h : reviewer_action doc payload now = Except.ok doc1) :
    doc.frozen = false ∧
    (doc.status = Status.submitted_for_review ∨ doc.status = Status.recheck_requested) ∧
    doc1.frozen = doc.frozen ∧ doc1.updated_at = now ∧
    (match payload.action with
     | .mark_reviewed => doc1.status = Status.reviewed ∧
         doc1.comments = doc.comments ++
           [⟨.reviewer, if pyTruthy payload.comment then payload.comment.getD ""
                        else "Marked as reviewed", now⟩]
     | .request_reentry => doc1.status = Status.reentry_requested ∧
         doc1.comments = doc.comments ++
           [⟨.reviewer, if pyTruthy payload.comment then payload.comment.getD ""
                        else "Re-entry requested", now⟩]) := by
  unfold reviewer_action at h
  by_cases hf : doc.frozen
  · simp [hf] at h
  by_cases hs : doc.status = Status.submitted_for_review ∨ doc.status = Status.recheck_requested
  · rw [if_neg hf, if_neg (not_not_intro hs)] at h
    obtain h1 := Except.ok.inj h
    subst h1
    refine ⟨by simpa using hf, hs, ?_⟩
    cases ha : payload.action <;>
      by_cases hc : pyTruthy payload.comment <;>
        simp [ha, hc]
  · simp [hf, hs] at h

/-- Helper: shape of a successful `approver_action` call. -/
theorem approve_ok_shape (doc : EntryDoc) (payload : ApproverActionPayload)
    (now : Nat) (doc1 : EntryDoc)
    (h : approver_action doc payload now = Except.ok doc1) :
    doc.frozen = false ∧ doc.status = Status.reviewed ∧
    doc1.updated_at = now ∧
    (match payload.action with
     | .approve => doc1.frozen = true ∧ doc1.status = Status.approved ∧
         doc1.comments = doc.comments ++
           [⟨.approver, if pyTruthy payload.comment then payload.comment.getD ""
                        else "Approved", now⟩]
     | .request_rereview => doc1.frozen = doc.frozen ∧
         doc1.status = Status.recheck_requested ∧
         doc1.comments = doc.comments ++
           [⟨.approver, if pyTruthy payload.comment then payload.comment.getD ""
                        else "Re-review requested", now⟩]) := by
  unfold approver_action at h
  by_cases hf : doc.frozen
  · simp [hf] at h
  by_cases hs : doc.status = Status.reviewed
  · rw [if_neg hf, if_neg (not_not_intro hs)] at h
    obtain h1 := Except.ok.inj h
    subst h1
    refine ⟨by simpa using hf, hs, ?_⟩
    cases ha : payload.action <;>
      by_cases hc : pyTruthy payload.comment <;>
        simp [ha, hc]
  · simp [hf, hs] at h

/-- Helper: any successful operation establishes the frozen/approved coupling
on its output (success implies the input was not frozen, and every success
branch pairs `frozen` and `status` correctly). -/
theorem step_ok_inv (doc doc1 : EntryDoc) (op : Op) (now : Nat)
    (h : step doc op now = Except.ok doc1) : frozenInv doc1 := by
  cases op with
  | update payload =>
    obtain ⟨hf, hs, h1, h2, -⟩ := update_entry_ok_shape doc payload now doc1 h
    unfold frozenInv
    rw [h1, h2, hf]
    constructor
    · intro hx
      exact absurd hx (by simp)
    · intro hx
      rcases hs with hs | hs <;> rw [hs] at hx <;> exact absurd hx (by simp)
  | submit payload =>
    obtain ⟨hf, -, -, h1, h2, -⟩ := submit_ok_shape doc payload now doc1 h
    unfold frozenInv
    rw [h1, h2, hf]
    simp
  | review payload =>
    obtain ⟨hf, -, h1, -, h2⟩ := review_ok_shape doc payload now doc1 h
    unfold frozenInv
    cases ha : payload.action <;> rw [ha] at h2 <;> rw [h1, h2.1, hf] <;> simp
  | approve payload =>
    obtain ⟨hf, -, -, h2⟩ := approve_ok_shape doc payload now doc1 h
    unfold frozenInv
    cases ha : payload.action <;> rw [ha] at h2 <;> rw [h2.1, h2.2.1] <;> simp [hf]

/-- Helper: the coupling invariant is preserved by any operation sequence. -/
theorem run_inv (doc : EntryDoc) (ops : List (Op × Nat)) (hinv : frozenInv doc) :
    frozenInv (run doc ops) := by
  induction ops generalizing doc with
  | nil => exact hinv
  | cons hd tl ih =>
    obtain ⟨op, now⟩ := hd
    rw [run]
    cases hstep : step doc op now with
    | ok doc1 => exact ih doc1 (step_ok_inv doc doc1 op now hstep)
    | error e => exact ih doc hinv

/-- C1, counterexample to the claim as stated: `create_entry` does not force
the defaults — a caller-supplied `status=approved` / `frozen=true` /
non-empty `comments` passes `AccountingEntry` validation and is stored
as-is; here the created entry has `status=approved`, not `draft`. -/
theorem create_forces_defaults_cex :
    (create_entry sampleSeeded 0).status = Status.approved ∧
    (create_entry sampleSeeded 0).frozen = true ∧
    (create_entry sampleSeeded 0).comments ≠ [] ∧
    Status.approved ≠ Status.draft := by
  refine ⟨rfl, rfl, by simp [create_entry, create_document, sampleSeeded], by simp⟩

/-- C1 (amended): Create keeps the supplied `title`, `amount` and optional
`description`; `status`, `comments` and `frozen` are likewise kept when
the caller supplies them, and default to `draft` / `[]` / `false` only
when the caller omits them — the defaults are not forced. -/
theorem create_entry_fields (entry : AccountingEntry) (now : Nat) :
    ((create_entry entry now).title = entry.title ∧
     (create_entry entry now).amount = entry.amount ∧
     (create_entry entry now).description = entry.description) ∧
    ((create_entry entry now).status = entry.status ∧
     (create_entry entry now).comments = entry.comments ∧
     (create_entry entry now).frozen = entry.frozen) ∧
    (∀ (t : String) (a : Int) (d : Option String),
      (create_entry { title := t, amount := a, description := d } now).status = Status.draft ∧
      (create_entry { title := t, amount := a, description := d } now).comments = [] ∧
      (create_entry { title := t, amount := a, description := d } now).frozen = false) :=
  ⟨⟨rfl, rfl, rfl⟩, ⟨rfl, rfl, rfl⟩, fun _ _ _ => ⟨rfl, rfl, rfl⟩⟩

/-- C2, counterexample to the claim as stated: an entry created with a
caller-supplied `status=approved` (and default `frozen=false`) is reachable
with zero operations and violates `frozen == true ⇔ status == approved`. -/
theorem frozen_iff_approved_cex :
    ¬ frozenInv
        (run (create_entry { title := "x", amount := 1, status := Status.approved } 0) []) := by
  decide

/-- C2 (amended): for every entry created with the model defaults for
`status`, `comments` and `frozen` (i.e. only `title` / `amount` /
`description` supplied), every sequence of the mutating operations
preserves `frozen == true ⇔ status == approved`; moreover, for any
document whatsoever with `frozen == true`, every single operation fails
with `Frozen` and every operation sequence leaves all fields unchanged. -/
theorem frozen_iff_approved_invariant
    (t : String) (a : Int) (d : Option String) (t0 : Nat) (ops : List (Op × Nat)) :
    frozenInv (run (create_entry { title := t, amount := a, description := d } t0) ops) ∧
    (∀ (doc : EntryDoc) (op : Op) (now : Nat), doc.frozen = true →
      step doc op now = Except.error Err.Frozen) ∧
    (∀ (doc : EntryDoc) (ops2 : List (Op × Nat)), doc.frozen = true →
      run doc ops2 = doc) := by
  refine ⟨?_, fun doc op now hf => step_of_frozen doc op now hf,
    fun doc ops2 hf => run_of_frozen doc ops2 hf⟩
  apply run_inv
  unfold frozenInv create_entry create_document
  simp

/-- Witness for C2's amended theorem at concrete inputs. -/
theorem frozen_iff_approved_invariant_witness :
    frozenInv (run (create_entry { title := "a", amount := 2 } 0)
      [(Op.submit ⟨Role.creator, none⟩, 1)]) ∧
    step sampleFrozen (Op.update ⟨some "n", none, none, Role.creator⟩) 5
      = Except.error Err.Frozen ∧
    run sampleFrozen [(Op.approve ⟨ApproverRole.blackadam, ApproverAct.approve, none⟩, 6)]
      = sampleFrozen :=
  ⟨(frozen_iff_approved_invariant "a" 2 none 0 [(Op.submit ⟨Role.creator, none⟩, 1)]).1,
   (frozen_iff_approved_invariant "a" 2 none 0 []).2.1 sampleFrozen
     (Op.update ⟨some "n", none, none, Role.creator⟩) 5 rfl,
   (frozen_iff_approved_invariant "a" 2 none 0 []).2.2 sampleFrozen
     [(Op.approve ⟨ApproverRole.blackadam, ApproverAct.approve, none⟩, 6)] rfl⟩

/-- C3: on a frozen document, every one of the four mutating operations
fails with `Frozen` for every payload — hence regardless of declared role
and requested action, and never with `InvalidState` or `Forbidden`: the
frozen check precedes the role and state checks. -/
theorem frozen_check_precedes (doc : EntryDoc) (now : Nat) (hf : doc.frozen = true) :
    (∀ payload, update_entry doc payload now = Except.error Err.Frozen) ∧
    (∀ payload, submit_for_review doc payload now = Except.error Err.Frozen) ∧
    (∀ payload, reviewer_action doc payload now = Except.error Err.Frozen) ∧
    (∀ payload, approver_action doc payload now = Except.error Err.Frozen) := by
  refine ⟨fun p => ?_, fun p => ?_, fun p => ?_, fun p => ?_⟩ <;>
    simp [update_entry, submit_for_review, reviewer_action, approver_action, hf]

/-- Witness for C3 at a concrete frozen document and concrete payloads. -/
theorem frozen_check_precedes_witness :
    update_entry sampleFrozen ⟨some "t", none, none, Role.approver⟩ 7
      = Except.error Err.Frozen ∧
    submit_for_review sampleFrozen ⟨Role.blackadam, some "c"⟩ 7
      = Except.error Err.Frozen ∧
    reviewer_action sampleFrozen ⟨ReviewerRole.reviewer, ReviewerAct.mark_reviewed, none⟩ 7
      = Except.error Err.Frozen ∧
    approver_action sampleFrozen ⟨ApproverRole.approver, ApproverAct.approve, none⟩ 7
      = Except.error Err.Frozen :=
  ⟨(frozen_check_precedes sampleFrozen 7 rfl).1 _,
   (frozen_check_precedes sampleFrozen 7 rfl).2.1 _,
   (frozen_check_precedes sampleFrozen 7 rfl).2.2.1 _,
   (frozen_check_precedes sampleFrozen 7 rfl).2.2.2 _⟩

/-- C4: create `{title:"Rent", amount:500}`, submit as creator with no
comment, reviewer `mark_reviewed`, approver `approve` — the final entry
has `status=approved`, `frozen=true`, and exactly two comments: the
reviewer default "Marked as reviewed" followed by the approver default
"Approved". -/
theorem rent_scenario :
    (submit_for_review (create_entry { title := "Rent", amount := 500 } 0)
        { role := Role.creator } 1).bind
      (fun e1 => (reviewer_action e1
          { role := ReviewerRole.reviewer, action := ReviewerAct.mark_reviewed } 2).bind
        (fun e2 => approver_action e2
          { role := ApproverRole.approver, action := ApproverAct.approve } 3)) =
    Except.ok
      { title := "Rent", amount := 500, description := none,
        status := Status.approved,
        comments := [⟨CommentRole.reviewer, "Marked as reviewed", 2⟩,
                     ⟨CommentRole.approver, "Approved", 3⟩],
        frozen := true, created_at := 0, updated_at := 3 } := by
  rfl

/-- C5: whenever a successful operation appends a comment, the comment's
role is the operation's workflow role — `creator` for submit, `reviewer`
for reviewer actions, `approver` for approver actions — for every payload,
in particular when the call was authorized via the `blackadam` superuser
credential; the `Comment.role` type has no superuser inhabitant at all. -/
theorem comment_roles_natural (doc : EntryDoc) (now : Nat) :
    (∀ payload doc1, submit_for_review doc payload now = Except.ok doc1 →
      doc1.comments = doc.comments ∨
      ∃ m, doc1.comments = doc.comments ++ [⟨CommentRole.creator, m, now⟩]) ∧
    (∀ payload doc1, reviewer_action doc payload now = Except.ok doc1 →
      ∃ m, doc1.comments = doc.comments ++ [⟨CommentRole.reviewer, m, now⟩]) ∧
    (∀ payload doc1, approver_action doc payload now = Except.ok doc1 →
      ∃ m, doc1.comments = doc.comments ++ [⟨CommentRole.approver, m, now⟩]) := by
  refine ⟨fun payload doc1 h => ?_, fun payload doc1 h => ?_, fun payload doc1 h => ?_⟩
  · obtain ⟨-, -, -, -, -, -, hc⟩ := submit_ok_shape doc payload now doc1 h
    by_cases hcc : pyTruthy payload.comment
    · rw [if_pos hcc] at hc
      exact Or.inr ⟨_, hc⟩
    · rw [if_neg hcc] at hc
      exact Or.inl hc
  · obtain ⟨-, -, -, -, hm⟩ := review_ok_shape doc payload now doc1 h
    cases ha : payload.action <;> rw [ha] at hm <;> exact ⟨_, hm.2⟩
  · obtain ⟨-, -, -, hm⟩ := approve_ok_shape doc payload now doc1 h
    cases ha : payload.action <;> rw [ha] at hm <;> exact ⟨_, hm.2.2⟩

/-- Witness for C5: a reviewer action authorized with the `blackadam`
credential still appends a `reviewer`-role comment. -/
theorem comment_roles_natural_witness :
    ∃ m, (EntryDoc.comments
      { title := "s", amount := 3, description := none, status := Status.reviewed,
        comments := [⟨CommentRole.reviewer, "Marked as reviewed", 5⟩],
        frozen := false, created_at := 0, updated_at := 5 }) =
      sampleSubmitted.comments ++ [⟨CommentRole.reviewer, m, 5⟩] :=
  (comment_roles_natural sampleSubmitted 5).2.1
    ⟨ReviewerRole.blackadam, ReviewerAct.mark_reviewed, none⟩
    { title := "s", amount := 3, description := none, status := Status.reviewed,
      comments := [⟨CommentRole.reviewer, "Marked as reviewed", 5⟩],
      frozen := false, created_at := 0, updated_at := 5 }
    rfl

/-- C6: `update_entry` never consults the declared role — two calls on the
same document with the same `title` / `amount` / `description` payload but
any two different roles have identical outcomes. -/
theorem update_role_not_gating (doc : EntryDoc) (t : Option String) (a : Option Int)
    (d : Option String) (r1 r2 : Role) (now : Nat) :
    update_entry doc ⟨t, a, d, r1⟩ now = update_entry doc ⟨t, a, d, r2⟩ now := rfl

/-- C7: on a (non-frozen) entry in `reviewed` status, an approver
`request_rereview` with no comment succeeds, yields
`status=recheck_requested` with `frozen` still `false` and exactly one new
`approver` comment "Re-review requested"; a reviewer `mark_reviewed` on
the result then succeeds and yields `status=reviewed`. -/
theorem rereview_scenario (doc : EntryDoc) (now now2 : Nat)
    (hs : doc.status = Status.reviewed) (hf : doc.frozen = false) :
    ∃ doc1,
      approver_action doc ⟨ApproverRole.approver, ApproverAct.request_rereview, none⟩ now
        = Except.ok doc1 ∧
      doc1.status = Status.recheck_requested ∧
      doc1.frozen = false ∧
      doc1.comments = doc.comments ++ [⟨CommentRole.approver, "Re-review requested", now⟩] ∧
      ∃ doc2,
        reviewer_action doc1 ⟨ReviewerRole.reviewer, ReviewerAct.mark_reviewed, none⟩ now2
          = Except.ok doc2 ∧
        doc2.status = Status.reviewed := by
  have h1 : approver_action doc ⟨ApproverRole.approver, ApproverAct.request_rereview, none⟩ now
      = Except.ok { doc with
                    status := Status.recheck_requested,
                    comments := doc.comments ++
                      [⟨CommentRole.approver, "Re-review requested", now⟩],
                    updated_at := now } := by
    unfold approver_action
    rw [if_neg (by simp [hf]), if_neg (not_not_intro hs)]
    rfl
  have h2 : reviewer_action
      { doc with
        status := Status.recheck_requested,
        comments := doc.comments ++ [⟨CommentRole.approver, "Re-review requested", now⟩],
        updated_at := now }
      ⟨ReviewerRole.reviewer, ReviewerAct.mark_reviewed, none⟩ now2
      = Except.ok { doc with
                    status := Status.reviewed,
                    comments := (doc.comments ++
                        [⟨CommentRole.approver, "Re-review requested", now⟩]) ++
                      [⟨CommentRole.reviewer, "Marked as reviewed", now2⟩],
                    updated_at := now2 } := by
    unfold reviewer_action
    rw [if_neg (by simp [hf]), if_neg (by simp)]
    rfl
  exact ⟨_, h1, rfl, hf, rfl, _, h2, rfl⟩

/-- Witness for C7 at a concrete reviewed document. -/
theorem rereview_scenario_witness :
    ∃ doc1,
      approver_action sampleReviewed
          ⟨ApproverRole.approver, ApproverAct.request_rereview, none⟩ 4
        = Except.ok doc1 ∧
      doc1.status = Status.recheck_requested ∧
      doc1.frozen = false ∧
      doc1.comments = sampleReviewed.comments ++
        [⟨CommentRole.approver, "Re-review requested", 4⟩] ∧
      ∃ doc2,
        reviewer_action doc1 ⟨ReviewerRole.reviewer, ReviewerAct.mark_reviewed, none⟩ 5
          = Except.ok doc2 ∧
        doc2.status = Status.reviewed :=
  rereview_scenario sampleReviewed 4 5 rfl rfl

/-- C8: `submit_for_review` with declared role `reviewer` or `approver`
on a (non-frozen) draft entry fails with `Forbidden`, which the boundary
maps to HTTP 403, and the stored entry is unchanged. -/
theorem submit_forbidden_roles (doc : EntryDoc) (payload : RolePayload) (now : Nat)
    (hs : doc.status = Status.draft) (hf : doc.frozen = false)
    (hr : payload.role = Role.reviewer ∨ payload.role = Role.approver) :
    submit_for_review doc payload now = Except.error Err.Forbidden ∧
    httpStatus Err.Forbidden = 403 ∧
    run doc [(Op.submit payload, now)] = doc := by
  have hfb : submit_for_review doc payload now = Except.error Err.Forbidden := by
    unfold submit_for_review
    rcases hr with h | h <;> rw [if_neg (by simp [hf]), if_pos (by simp [h])]
  refine ⟨hfb, rfl, ?_⟩
  simp [run, step, hfb]

/-- Witness for C8 at a concrete draft document and role `reviewer`. -/
theorem submit_forbidden_roles_witness :
    submit_for_review sampleDraft ⟨Role.reviewer, none⟩ 3 = Except.error Err.Forbidden ∧
    httpStatus Err.Forbidden = 403 ∧
    run sampleDraft [(Op.submit ⟨Role.reviewer, none⟩, 3)] = sampleDraft :=
  submit_forbidden_roles sampleDraft ⟨Role.reviewer, none⟩ 3 rfl rfl (Or.inl rfl)

/-- C9: an `update_entry` call on a non-frozen entry in `draft` or
`reentry_requested` status that supplies none of `title` / `amount` /
`description` succeeds and returns the stored document itself — every
field, `updated_at` included, unchanged, and no store write happens. -/
theorem update_noop_no_bump (doc : EntryDoc) (r : Role) (now : Nat)
    (hf : doc.frozen = false)
    (hs : doc.status = Status.draft ∨ doc.status = Status.reentry_requested) :
    update_entry doc ⟨none, none, none, r⟩ now = Except.ok doc := by
  unfold update_entry
  rw [if_neg (by simp [hf]), if_neg (not_not_intro hs), if_pos ⟨rfl, rfl, rfl⟩]

/-- Witness for C9 at a concrete draft document. -/
theorem update_noop_no_bump_witness :
    update_entry sampleDraft ⟨none, none, none, Role.blackadam⟩ 9 = Except.ok sampleDraft :=
  update_noop_no_bump sampleDraft Role.blackadam 9 rfl (Or.inl rfl)

/-- C10: an empty-string comment is falsy, exactly like an absent one:
`submit_for_review` then appends no comment (same outcome as `comment`
absent), while reviewer and approver actions still append a comment
carrying the transition's default message instead of the empty string. -/
theorem empty_comment_semantics (doc : EntryDoc) (now : Nat) :
    (∀ r, submit_for_review doc ⟨r, some ""⟩ now = submit_for_review doc ⟨r, none⟩ now) ∧
    (∀ r doc1, submit_for_review doc ⟨r, some ""⟩ now = Except.ok doc1 →
      doc1.comments = doc.comments) ∧
    (∀ r doc1, reviewer_action doc ⟨r, ReviewerAct.mark_reviewed, some ""⟩ now
        = Except.ok doc1 →
      doc1.comments = doc.comments ++ [⟨CommentRole.reviewer, "Marked as reviewed", now⟩]) ∧
    (∀ r doc1, reviewer_action doc ⟨r, ReviewerAct.request_reentry, some ""⟩ now
        = Except.ok doc1 →
      doc1.comments = doc.comments ++ [⟨CommentRole.reviewer, "Re-entry requested", now⟩]) ∧
    (∀ r doc1, approver_action doc ⟨r, ApproverAct.approve, some ""⟩ now = Except.ok doc1 →
      doc1.comments = doc.comments ++ [⟨CommentRole.approver, "Approved", now⟩]) ∧
    (∀ r doc1, approver_action doc ⟨r, ApproverAct.request_rereview, some ""⟩ now
        = Except.ok doc1 →
      doc1.comments = doc.comments ++ [⟨CommentRole.approver, "Re-review requested", now⟩]) := by
  refine ⟨fun r => rfl, fun r doc1 h => ?_, fun r doc1 h => ?_, fun r doc1 h => ?_,
    fun r doc1 h => ?_, fun r doc1 h => ?_⟩
  · obtain ⟨-, -, -, -, -, -, hc⟩ := submit_ok_shape doc _ now doc1 h
    rw [if_neg (by simp [pyTruthy])] at hc
    exact hc
  · obtain ⟨-, -, -, -, hm⟩ := review_ok_shape doc _ now doc1 h
    have hm2 := hm.2
    rw [if_neg (by simp [pyTruthy])] at hm2
    exact hm2
  · obtain ⟨-, -, -, -, hm⟩ := review_ok_shape doc _ now doc1 h
    have hm2 := hm.2
    rw [if_neg (by simp [pyTruthy])] at hm2
    exact hm2
  · obtain ⟨-, -, -, hm⟩ := approve_ok_shape doc _ now doc1 h
    have hm2 := hm.2.2
    rw [if_neg (by simp [pyTruthy])] at hm2
    exact hm2
  · obtain ⟨-, -, -, hm⟩ := approve_ok_shape doc _ now doc1 h
    have hm2 := hm.2.2
    rw [if_neg (by simp [pyTruthy])] at hm2
    exact hm2

/-- Witness for C10: concrete empty-string-comment calls on concrete
documents — submit appends nothing, `mark_reviewed` appends its default. -/
theorem empty_comment_semantics_witness :
    (EntryDoc.comments
      { title := "d", amount := 1, description := none,
        status := Status.submitted_for_review, comments := [],
        frozen := false, created_at := 0, updated_at := 6 }) = sampleDraft.comments ∧
    (EntryDoc.comments
      { title := "s", amount := 3, description := none, status := Status.reviewed,
        comments := [⟨CommentRole.reviewer, "Marked as reviewed", 6⟩],
        frozen := false, created_at := 0, updated_at := 6 }) =
      sampleSubmitted.comments ++ [⟨CommentRole.reviewer, "Marked as reviewed", 6⟩] :=
  ⟨(empty_comment_semantics sampleDraft 6).2.1 Role.creator
      { title := "d", amount := 1, description := none,
        status := Status.submitted_for_review, comments := [],
        frozen := false, created_at := 0, updated_at := 6 } rfl,
   (empty_comment_semantics sampleSubmitted 6).2.2.1 ReviewerRole.blackadam
      { title := "s", amount := 3, description := none, status := Status.reviewed,
        comments := [⟨CommentRole.reviewer, "Marked as reviewed", 6⟩],
        frozen := false, created_at := 0, updated_at := 6 } rfl⟩

end Accounting
